import Mathlib

/-!
Verification of the task-tracker canister (src/src/index.ts).

Shallow embedding conventions:
* A JS `Date` / timestamp is a `Nat` (milliseconds).
* A request body (`req.body`, a `Partial<Task>` JSON object) is a `TaskInput`
  whose fields are `Option`s: `none` models a field that is absent from the
  JSON object or is a falsy / non-string value that the validator treats the
  same way as absence.  The `deadline` field of an input is
  `Option (Option Nat)`: `none` is absent-or-falsy, `some none` is a value
  present and truthy on which `new Date(...)` yields `NaN`, and
  `some (some t)` is a value that parses to the time `t`.
* The `StableBTreeMap` is an association list `Store`; `storeInsert`
  replaces the binding at a key, as `insert` of the map does.
* `ic.time` (through `getCurrentDate`) is passed to each handler as an
  explicit `now : Nat` parameter, and `uuidv4()` as a `fresh : String`
  parameter.
-/

namespace TaskTracker

/-- The stored `Task` record of src/src/index.ts lines 9-19.  `priority` and
`status` are kept as strings, since the handlers build records by object
spread and nothing in the code restricts the stored strings beyond what
`validateTaskInput` checked on the input. -/
structure Task where
  id : String
  title : String
  description : String
  category : String
  priority : String
  deadline : Option Nat
  status : String
  createdAt : Nat
  updatedAt : Option Nat
deriving DecidableEq, Repr

/-- A request body, i.e. a JSON object that may carry any subset of the
fields of `Task` (`Partial<Task>`). -/
structure TaskInput where
  id : Option String
  title : Option String
  description : Option String
  category : Option String
  priority : Option String
  deadline : Option (Option Nat)
  status : Option String
  createdAt : Option Nat
  updatedAt : Option (Option Nat)
deriving DecidableEq, Repr

/-- The `tasksStorage` map, as an association list keyed by task id. -/
abbrev Store : Type := List (String × Task)

/-- Lookup in the store (`tasksStorage.get`). -/
def storeGet : Store → String → Option Task
  | [], _ => none
  | (k, t) :: rest, key => if k = key then some t else storeGet rest key

/-- Insert-or-replace in the store (`tasksStorage.insert`). -/
def storeInsert : Store → String → Task → Store
  | [], key, t => [(key, t)]
  | (k, t0) :: rest, key, t =>
      if k = key then (key, t) :: rest else (k, t0) :: storeInsert rest key t

/-- Removal from the store (`tasksStorage.remove`, the map part; the handler
pairs it with the prior value via `storeGet`). -/
def storeRemove : Store → String → Store
  | [], _ => []
  | (k, t) :: rest, key =>
      if k = key then storeRemove rest key else (k, t) :: storeRemove rest key

/-- `validateTaskInput` of src/src/index.ts lines 46-64: pushes one message
per violated rule, in the fixed order title, description, category,
priority, deadline, and returns the collected list. -/
def validateTaskInput (task : TaskInput) : List String :=
  (if task.title = none ∨ task.title = some "" then
    ["Title is required and must be a string."] else []) ++
  (if task.description = none ∨ task.description = some "" then
    ["Description is required and must be a string."] else []) ++
  (if task.category = none ∨ task.category = some "" then
    ["Category is required and must be a string."] else []) ++
  (if task.priority ∉ [some "low", some "medium", some "high"] then
    ["Priority must be either low, medium, or high."] else []) ++
  (if task.deadline = none ∨ task.deadline = some none then
    ["Deadline must be a valid date."] else [])

/-- `getTaskById` of src/src/index.ts lines 69-72. -/
def getTaskById (taskId : String) (s : Store) : Option Task :=
  storeGet s taskId

/-- Outcome of a handler, abstracting the HTTP responses: `ok` is the JSON
body of a 2xx response, `validationError` the 400 body `\x7berrors\x7d`, and
`notFound` the 404 response. -/
inductive TaskResult where
  | ok (t : Task)
  | validationError (errors : List String)
  | notFound
deriving DecidableEq, Repr

/-- The object-spread of the POST handler (src/src/index.ts lines 84-90):
`\x7bid: uuidv4(), createdAt: getCurrentDate(), status: 'pending',
updatedAt: null, ...req.body\x7d`.  A field present in the body overwrites
the default; an absent field keeps it.  The `getD ""`/`getD none` defaults
for the five validated fields are unreachable through the handler, because
it only builds the record after `validateTaskInput` returned no errors. -/
def mkCreatedTask (body : TaskInput) (now : Nat) (fresh : String) : Task :=
  { id := body.id.getD fresh
  , title := body.title.getD ""
  , description := body.description.getD ""
  , category := body.category.getD ""
  , priority := body.priority.getD ""
  , deadline := body.deadline.getD none
  , status := body.status.getD "pending"
  , createdAt := body.createdAt.getD now
  , updatedAt := body.updatedAt.getD none }

/-- The POST /tasks handler (src/src/index.ts lines 77-97): validates the
body, and on success builds the record by spread and inserts it at the
record's own `id` field. -/
def createTask (body : TaskInput) (s : Store) (now : Nat) (fresh : String) :
    TaskResult × Store :=
  let errors := validateTaskInput body
  if errors ≠ [] then (TaskResult.validationError errors, s)
  else
    let task := mkCreatedTask body now fresh
    (TaskResult.ok task, storeInsert s task.id task)

/-- The object-spread of the PUT handler (src/src/index.ts lines 134-138):
`\x7b...task, ...req.body, updatedAt: getCurrentDate()\x7d`.  Every field
present in the body — including `id` and `createdAt` — overwrites the
stored value; absent fields keep it; `updatedAt` is always refreshed. -/
def mergeTask (task : Task) (body : TaskInput) (now : Nat) : Task :=
  { id := body.id.getD task.id
  , title := body.title.getD task.title
  , description := body.description.getD task.description
  , category := body.category.getD task.category
  , priority := body.priority.getD task.priority
  , deadline := body.deadline.getD task.deadline
  , status := body.status.getD task.status
  , createdAt := body.createdAt.getD task.createdAt
  , updatedAt := some now }

/-- The PUT /tasks/:id handler (src/src/index.ts lines 121-145): 404 when
the id is absent, then validates `req.body` (the raw partial, not the
merged record), and on success stores the merged record under the OLD
`task.id` key. -/
def updateTask (id : String) (body : TaskInput) (s : Store) (now : Nat) :
    TaskResult × Store :=
  match getTaskById id s with
  | none => (TaskResult.notFound, s)
  | some task =>
    let errors := validateTaskInput body
    if errors ≠ [] then (TaskResult.validationError errors, s)
    else
      let updatedTask := mergeTask task body now
      (TaskResult.ok updatedTask, storeInsert s task.id updatedTask)

/-- The PUT /tasks/:id/complete handler (src/src/index.ts lines 166-181).
It receives a request body but never reads it, hence the unused `body`
parameter. -/
def completeTask (id : String) (body : TaskInput) (s : Store) (now : Nat) :
    TaskResult × Store :=
  match getTaskById id s with
  | none => (TaskResult.notFound, s)
  | some task =>
    let updated := { task with status := "completed", updatedAt := some now }
    (TaskResult.ok updated, storeInsert s updated.id updated)

/-- The DELETE /tasks/:id handler (src/src/index.ts lines 150-161):
`tasksStorage.remove` both returns the prior binding and deletes it; the
handler answers 404 on absence and the removed record otherwise. -/
def deleteTask (id : String) (s : Store) : TaskResult × Store :=
  match storeGet s id with
  | none => (TaskResult.notFound, s)
  | some task => (TaskResult.ok task, storeRemove s id)

/-- One client-visible mutating operation, with its injected clock and
uuid values. -/
inductive Op where
  | create (body : TaskInput) (now : Nat) (fresh : String)
  | update (id : String) (body : TaskInput) (now : Nat)
  | complete (id : String) (body : TaskInput) (now : Nat)
  | delete (id : String)
deriving Repr

/-- The store left behind by one operation. -/
def applyOp (s : Store) : Op → Store
  | Op.create b now f => (createTask b s now f).2
  | Op.update id b now => (updateTask id b s now).2
  | Op.complete id b now => (completeTask id b s now).2
  | Op.delete id => (deleteTask id s).2

/-- The store reached by a sequence of operations. -/
def runOps (init : Store) (ops : List Op) : Store :=
  ops.foldl applyOp init

/-- Conversion of a stored record back into a request body carrying every
field, used to state that a merged record would itself pass validation. -/
def taskToInput (t : Task) : TaskInput :=
  { id := some t.id
  , title := some t.title
  , description := some t.description
  , category := some t.category
  , priority := some t.priority
  , deadline := some t.deadline
  , status := some t.status
  , createdAt := some t.createdAt
  , updatedAt := some t.updatedAt }

/-- A concrete well-formed stored task, used to instantiate witnesses. -/
def sampleTask : Task :=
  ⟨"a", "T", "D", "C", "low", some 10, "pending", 5, none⟩

/-- A concrete fully-populated valid request body, used to instantiate
witnesses. -/
def sampleBody : TaskInput :=
  ⟨none, some "T2", some "D2", some "C2", some "high", some (some 20),
   none, none, none⟩

example :
    validateTaskInput
      ⟨none, some "t", some "d", some "c", some "low", some (some 10),
       none, none, none⟩ = [] := by decide

example :
    validateTaskInput
      ⟨none, none, none, none, none, none, none, none, none⟩ =
      ["Title is required and must be a string.",
       "Description is required and must be a string.",
       "Category is required and must be a string.",
       "Priority must be either low, medium, or high.",
       "Deadline must be a valid date."] := by decide

/-! ### Store lemmas -/

theorem storeGet_storeInsert_self (s : Store) (k : String) (t : Task) :
    storeGet (storeInsert s k t) k = some t := by
  induction s with
  | nil => simp [storeInsert, storeGet]
  | cons hd tl ih =>
    obtain ⟨k0, t0⟩ := hd
    by_cases hk : k0 = k
    · simp [storeInsert, hk, storeGet]
    · simp [storeInsert, hk, storeGet, ih]

theorem storeGet_storeRemove_self (s : Store) (k : String) :
    storeGet (storeRemove s k) k = none := by
  induction s with
  | nil => simp [storeRemove, storeGet]
  | cons hd tl ih =>
    obtain ⟨k0, t0⟩ := hd
    by_cases hk : k0 = k
    · simp [storeRemove, hk, ih]
    · simp [storeRemove, hk, storeGet, ih]

theorem mem_storeInsert (s : Store) (k : String) (t : Task) (kv : String × Task)
    (h : kv ∈ storeInsert s k t) : kv = (k, t) ∨ kv ∈ s := by
  induction s with
  | nil => simpa [storeInsert] using h
  | cons hd tl ih =>
    obtain ⟨k0, t0⟩ := hd
    by_cases hk : k0 = k
    · simp only [storeInsert, if_pos hk, List.mem_cons] at h
      rcases h with h | h
      · exact Or.inl h
      · exact Or.inr (List.mem_cons_of_mem _ h)
    · simp only [storeInsert, if_neg hk, List.mem_cons] at h
      rcases h with h | h
      · exact Or.inr (h ▸ List.mem_cons_self _ _)
      · rcases ih h with h | h
        · exact Or.inl h
        · exact Or.inr (List.mem_cons_of_mem _ h)

theorem mem_storeRemove (s : Store) (k : String) (kv : String × Task)
    (h : kv ∈ storeRemove s k) : kv ∈ s := by
  induction s with
  | nil => simp [storeRemove] at h
  | cons hd tl ih =>
    obtain ⟨k0, t0⟩ := hd
    by_cases hk : k0 = k
    · simp only [storeRemove, if_pos hk] at h
      exact List.mem_cons_of_mem _ (ih h)
    · simp only [storeRemove, if_neg hk, List.mem_cons] at h
      rcases h with h | h
      · exact h ▸ List.mem_cons_self _ _
      · exact List.mem_cons_of_mem _ (ih h)

theorem mem_of_storeGet (s : Store) (k : String) (t : Task)
    (h : storeGet s k = some t) : (k, t) ∈ s := by
  induction s with
  | nil => simp [storeGet] at h
  | cons hd tl ih =>
    obtain ⟨k0, t0⟩ := hd
    by_cases hk : k0 = k
    · simp only [storeGet, if_pos hk] at h
      subst hk
      obtain rfl : t0 = t := Option.some_injective _ h
      exact List.mem_cons_self _ _
    · simp only [storeGet, if_neg hk] at h
      exact List.mem_cons_of_mem _ (ih h)

/-! ### Facts extracted from a successful validation -/

theorem title_of_validate_nil (b : TaskInput) (h : validateTaskInput b = []) :
    ∃ v, b.title = some v ∧ v ≠ "" := by
  rcases hb : b.title with _ | v
  · simp [validateTaskInput, hb] at h
  · refine ⟨v, rfl, ?_⟩
    rintro rfl
    simp [validateTaskInput, hb] at h

theorem description_of_validate_nil (b : TaskInput)
    (h : validateTaskInput b = []) :
    ∃ v, b.description = some v ∧ v ≠ "" := by
  rcases hb : b.description with _ | v
  · simp [validateTaskInput, hb] at h
  · refine ⟨v, rfl, ?_⟩
    rintro rfl
    simp [validateTaskInput, hb] at h

theorem category_of_validate_nil (b : TaskInput)
    (h : validateTaskInput b = []) :
    ∃ v, b.category = some v ∧ v ≠ "" := by
  rcases hb : b.category with _ | v
  · simp [validateTaskInput, hb] at h
  · refine ⟨v, rfl, ?_⟩
    rintro rfl
    simp [validateTaskInput, hb] at h

theorem priority_of_validate_nil (b : TaskInput)
    (h : validateTaskInput b = []) :
    b.priority = some "low" ∨ b.priority = some "medium" ∨
      b.priority = some "high" := by
  by_cases hmem : b.priority ∈ [some "low", some "medium", some "high"]
  · simpa using hmem
  · simp [validateTaskInput, hmem] at h

theorem deadline_of_validate_nil (b : TaskInput)
    (h : validateTaskInput b = []) :
    ∃ d, b.deadline = some (some d) := by
  rcases hb : b.deadline with _ | (_ | d)
  · simp [validateTaskInput, hb] at h
  · simp [validateTaskInput, hb] at h
  · exact ⟨d, rfl⟩

/-! ### Claim theorems -/

/-- C4: a create or update request whose input fails validation fails with a
validation error carrying the collected list of violated rules, and the
store is left exactly as it was (no write occurs).  For update, the record
at `id` must exist, since the handler answers 404 before validating. -/
theorem C4_validation_failure_no_write (b : TaskInput) (s : Store)
    (id : String) (now : Nat) (fresh : String) (t : Task)
    (hbad : validateTaskInput b ≠ []) (ht : getTaskById id s = some t) :
    createTask b s now fresh =
      (TaskResult.validationError (validateTaskInput b), s) ∧
    updateTask id b s now =
      (TaskResult.validationError (validateTaskInput b), s) := by
  constructor
  · simp [createTask, hbad]
  · simp [updateTask, ht, hbad]

/-- Witness for C4 at a concrete store and an input violating every rule. -/
theorem C4_validation_failure_no_write_witness :
    createTask ⟨none, none, none, none, none, none, none, none, none⟩
        [("a", sampleTask)] 7 "f" =
      (TaskResult.validationError
        (validateTaskInput ⟨none, none, none, none, none, none, none, none, none⟩),
       [("a", sampleTask)]) ∧
    updateTask "a" ⟨none, none, none, none, none, none, none, none, none⟩
        [("a", sampleTask)] 7 =
      (TaskResult.validationError
        (validateTaskInput ⟨none, none, none, none, none, none, none, none, none⟩),
       [("a", sampleTask)]) :=
  C4_validation_failure_no_write
    ⟨none, none, none, none, none, none, none, none, none⟩
    [("a", sampleTask)] "a" 7 "f" sampleTask (by decide) (by decide)

/-- C5: validation collects all violated rules rather than stopping at the
first: an input with title missing, valid non-empty description and
category, priority urgent and an unparsable deadline yields exactly the
three violations for title, priority and deadline, in the fixed rule
order. -/
theorem C5_validation_collects_all (d c : String) (hd : d ≠ "") (hc : c ≠ "") :
    validateTaskInput
      ⟨none, none, some d, some c, some "urgent", some none, none, none, none⟩ =
      ["Title is required and must be a string.",
       "Priority must be either low, medium, or high.",
       "Deadline must be a valid date."] := by
  simp [validateTaskInput, hd, hc]

/-- Witness for C5 at concrete non-empty description and category. -/
theorem C5_validation_collects_all_witness :
    validateTaskInput
      ⟨none, none, some "x", some "y", some "urgent", some none, none, none, none⟩ =
      ["Title is required and must be a string.",
       "Priority must be either low, medium, or high.",
       "Deadline must be a valid date."] :=
  C5_validation_collects_all "x" "y" (by decide) (by decide)

/-- C7: delete answers NotFound when the id is absent; otherwise it removes
the record and returns it, and a second delete with no intervening create
fails with NotFound. -/
theorem C7_delete_semantics (s : Store) (id : String) :
    (storeGet s id = none → deleteTask id s = (TaskResult.notFound, s)) ∧
    (∀ t, storeGet s id = some t →
      deleteTask id s = (TaskResult.ok t, storeRemove s id) ∧
      (deleteTask id ((deleteTask id s).2)).1 = TaskResult.notFound) := by
  constructor
  · intro h
    simp [deleteTask, h]
  · intro t h
    constructor
    · simp [deleteTask, h]
    · simp [deleteTask, h, storeGet_storeRemove_self]

/-- Witness for C7 on a one-element store. -/
theorem C7_delete_semantics_witness :
    deleteTask "a" [("a", sampleTask)] =
      (TaskResult.ok sampleTask, storeRemove [("a", sampleTask)] "a") ∧
    (deleteTask "a" ((deleteTask "a" [("a", sampleTask)]).2)).1 =
      TaskResult.notFound :=
  (C7_delete_semantics [("a", sampleTask)] "a").2 sampleTask (by decide)

/-- C8: for a valid create input, the create succeeds and an immediate
getById at the id of the returned record returns a record equal to the
create result. -/
theorem C8_create_then_getById (b : TaskInput) (s : Store) (now : Nat)
    (fresh : String) (hval : validateTaskInput b = []) :
    (createTask b s now fresh).1 = TaskResult.ok (mkCreatedTask b now fresh) ∧
    getTaskById (mkCreatedTask b now fresh).id (createTask b s now fresh).2 =
      some (mkCreatedTask b now fresh) := by
  constructor
  · simp [createTask, hval]
  · simp [createTask, hval, getTaskById, storeGet_storeInsert_self]

/-- Witness for C8 with a concrete valid body on the empty store. -/
theorem C8_create_then_getById_witness :
    (createTask sampleBody [] 0 "f").1 =
      TaskResult.ok (mkCreatedTask sampleBody 0 "f") ∧
    getTaskById (mkCreatedTask sampleBody 0 "f").id
        (createTask sampleBody [] 0 "f").2 =
      some (mkCreatedTask sampleBody 0 "f") :=
  C8_create_then_getById sampleBody [] 0 "f" (by decide)

/-- C1 counterexample: with a well-formed task stored at "a", the one-field
partial carrying only a new title has a valid merged result (the merged
record, resubmitted as an input, passes validation), yet update does not
succeed: the handler validates the raw partial and reports the four absent
fields. -/
theorem C1_counterexample :
    validateTaskInput (taskToInput (mergeTask sampleTask
      ⟨none, some "New", none, none, none, none, none, none, none⟩ 7)) = [] ∧
    (updateTask "a" ⟨none, some "New", none, none, none, none, none, none, none⟩
        [("a", sampleTask)] 7).1 =
      TaskResult.validationError
        ["Description is required and must be a string.",
         "Category is required and must be a string.",
         "Priority must be either low, medium, or high.",
         "Deadline must be a valid date."] := by
  decide

/-- C1 (amended): update validates the supplied partial payload itself, not
the merged record; whenever the payload passes validation, update succeeds,
persists the overlay of the stored task with the payload under the old key,
and in the overlay every field present in the payload replaces the stored
value, every absent field retains it, and updatedAt is refreshed. -/
theorem C1_update_merge_semantics (id : String) (b : TaskInput) (s : Store)
    (t : Task) (now : Nat)
    (hget : getTaskById id s = some t) (hval : validateTaskInput b = []) :
    updateTask id b s now =
      (TaskResult.ok (mergeTask t b now),
       storeInsert s t.id (mergeTask t b now)) ∧
    (mergeTask t b now).updatedAt = some now ∧
    (mergeTask t b now).title = b.title.getD t.title ∧
    (mergeTask t b now).description = b.description.getD t.description ∧
    (mergeTask t b now).category = b.category.getD t.category ∧
    (mergeTask t b now).priority = b.priority.getD t.priority ∧
    (mergeTask t b now).deadline = b.deadline.getD t.deadline ∧
    (mergeTask t b now).status = b.status.getD t.status ∧
    (mergeTask t b now).id = b.id.getD t.id ∧
    (mergeTask t b now).createdAt = b.createdAt.getD t.createdAt := by
  refine ⟨?_, rfl, rfl, rfl, rfl, rfl, rfl, rfl, rfl, rfl⟩
  simp [updateTask, hget, hval]

/-- Witness for the amended C1 with a fully-populated valid payload. -/
theorem C1_update_merge_semantics_witness :
    updateTask "a" sampleBody [("a", sampleTask)] 7 =
      (TaskResult.ok (mergeTask sampleTask sampleBody 7),
       storeInsert [("a", sampleTask)] sampleTask.id
         (mergeTask sampleTask sampleBody 7)) :=
  (C1_update_merge_semantics "a" sampleBody [("a", sampleTask)] sampleTask 7
    (by decide) (by decide)).1

/-- C2 counterexample: a valid create input that also carries
status completed is accepted and the returned (and persisted) record has
status completed, not pending, because the body spread overwrites the
defaults. -/
theorem C2_counterexample :
    (createTask ⟨none, some "T2", some "D2", some "C2", some "high",
        some (some 20), some "completed", none, none⟩ [] 0 "f").1 =
      TaskResult.ok ⟨"f", "T2", "D2", "C2", "high", some 20, "completed", 0, none⟩ ∧
    ("completed" : String) ≠ "pending" := by
  decide

/-- C2 (amended): for a valid create input that supplies none of id,
createdAt, status and updatedAt, create returns and persists a record with
status pending, updatedAt absent, createdAt the current time, a fresh
previously-unseen id, and the caller-supplied title, description, category,
priority and deadline copied verbatim.  Inputs carrying those four fields
instead overwrite the service defaults. -/
theorem C2_create_defaults (b : TaskInput) (s : Store) (now : Nat)
    (fresh : String) (hval : validateTaskInput b = []) (hid : b.id = none)
    (hca : b.createdAt = none) (hst : b.status = none)
    (hup : b.updatedAt = none) (hfresh : storeGet s fresh = none) :
    createTask b s now fresh =
      (TaskResult.ok (mkCreatedTask b now fresh),
       storeInsert s fresh (mkCreatedTask b now fresh)) ∧
    (mkCreatedTask b now fresh).status = "pending" ∧
    (mkCreatedTask b now fresh).updatedAt = none ∧
    (mkCreatedTask b now fresh).createdAt = now ∧
    (mkCreatedTask b now fresh).id = fresh ∧
    storeGet s (mkCreatedTask b now fresh).id = none ∧
    some (mkCreatedTask b now fresh).title = b.title ∧
    some (mkCreatedTask b now fresh).description = b.description ∧
    some (mkCreatedTask b now fresh).category = b.category ∧
    some (mkCreatedTask b now fresh).priority = b.priority ∧
    some (mkCreatedTask b now fresh).deadline = b.deadline := by
  obtain ⟨vt, hvt, -⟩ := title_of_validate_nil b hval
  obtain ⟨vd, hvd, -⟩ := description_of_validate_nil b hval
  obtain ⟨vc, hvc, -⟩ := category_of_validate_nil b hval
  obtain ⟨vdl, hvdl⟩ := deadline_of_validate_nil b hval
  have hvp : ∃ p, b.priority = some p := by
    rcases priority_of_validate_nil b hval with hp | hp | hp <;> exact ⟨_, hp⟩
  obtain ⟨vp, hvp⟩ := hvp
  refine ⟨?_, ?_, ?_, ?_, ?_, ?_, ?_, ?_, ?_, ?_, ?_⟩ <;>
    simp [createTask, mkCreatedTask, hval, hid, hca, hst, hup, hfresh,
      hvt, hvd, hvc, hvdl, hvp]

/-- Witness for the amended C2 on the empty store. -/
theorem C2_create_defaults_witness :
    createTask sampleBody [] 0 "f" =
      (TaskResult.ok (mkCreatedTask sampleBody 0 "f"),
       storeInsert [] "f" (mkCreatedTask sampleBody 0 "f")) ∧
    (mkCreatedTask sampleBody 0 "f").status = "pending" :=
  ⟨(C2_create_defaults sampleBody [] 0 "f" (by decide) (by decide) (by decide)
      (by decide) (by decide) (by decide)).1,
   (C2_create_defaults sampleBody [] 0 "f" (by decide) (by decide) (by decide)
      (by decide) (by decide) (by decide)).2.1⟩

/-- C3 counterexample: a valid payload that also carries an id and a
createdAt is accepted, and the successful update returns — and persists
under the old key "a" — a record whose id is "b" and whose createdAt is 99,
both differing from the stored task's values. -/
theorem C3_counterexample :
    updateTask "a" ⟨some "b", some "T2", some "D2", some "C2", some "high",
        some (some 20), none, some 99, none⟩ [("a", sampleTask)] 7 =
      (TaskResult.ok ⟨"b", "T2", "D2", "C2", "high", some 20, "pending", 99, some 7⟩,
       [("a", ⟨"b", "T2", "D2", "C2", "high", some 20, "pending", 99, some 7⟩)]) ∧
    sampleTask.id = "a" ∧ sampleTask.createdAt = 5 ∧
    ("b" : String) ≠ "a" ∧ (99 : Nat) ≠ 5 := by
  decide

/-- C3 (amended): a successful update leaves id and createdAt equal to the
stored task's values whenever the payload does not carry them, and the
merged record is persisted under the old key; a payload that does carry id
or createdAt overwrites the stored field (though the storage key stays the
old id). -/
theorem C3_update_preserves_when_absent (id : String) (b : TaskInput)
    (s : Store) (t : Task) (now : Nat) (hget : getTaskById id s = some t)
    (hval : validateTaskInput b = []) (hid : b.id = none)
    (hca : b.createdAt = none) :
    (updateTask id b s now).1 = TaskResult.ok (mergeTask t b now) ∧
    (mergeTask t b now).id = t.id ∧
    (mergeTask t b now).createdAt = t.createdAt ∧
    getTaskById t.id (updateTask id b s now).2 = some (mergeTask t b now) := by
  refine ⟨?_, ?_, ?_, ?_⟩
  · simp [updateTask, hget, hval]
  · simp [mergeTask, hid]
  · simp [mergeTask, hca]
  · have hget2 : storeGet s id = some t := hget
    simp [updateTask, getTaskById, hget2, hval, storeGet_storeInsert_self]

/-- Witness for the amended C3 with a payload omitting id and createdAt. -/
theorem C3_update_preserves_when_absent_witness :
    (updateTask "a" sampleBody [("a", sampleTask)] 7).1 =
      TaskResult.ok (mergeTask sampleTask sampleBody 7) ∧
    (mergeTask sampleTask sampleBody 7).id = sampleTask.id ∧
    (mergeTask sampleTask sampleBody 7).createdAt = sampleTask.createdAt ∧
    getTaskById sampleTask.id (updateTask "a" sampleBody [("a", sampleTask)] 7).2 =
      some (mergeTask sampleTask sampleBody 7) :=
  C3_update_preserves_when_absent "a" sampleBody [("a", sampleTask)] sampleTask 7
    (by decide) (by decide) (by decide) (by decide)

/-- C10: the complete handler never reads the request body, so two requests
with arbitrary different bodies against the same store and clock produce
the identical result and store. -/
theorem C10_complete_ignores_body (id : String) (b1 b2 : TaskInput)
    (s : Store) (now : Nat) :
    completeTask id b1 s now = completeTask id b2 s now := rfl

/-- C6: complete answers NotFound when the id is absent; otherwise it sets
status to completed and updatedAt to the current time, persists the record
under its own id, and returns it; completing an already-completed task
succeeds again and refreshes updatedAt (stated for a store keyed by the
record's own id, which is how every record reached through create reaches
the store). -/
theorem C6_complete_semantics (s : Store) (id : String) (b : TaskInput)
    (now : Nat) :
    (storeGet s id = none → completeTask id b s now = (TaskResult.notFound, s)) ∧
    (∀ t, storeGet s id = some t →
      completeTask id b s now =
        (TaskResult.ok { t with status := "completed", updatedAt := some now },
         storeInsert s t.id
           { t with status := "completed", updatedAt := some now }) ∧
      (∀ b2 now2, t.id = id →
        (completeTask id b2 (completeTask id b s now).2 now2).1 =
          TaskResult.ok
            { t with status := "completed", updatedAt := some now2 })) := by
  constructor
  · intro h
    simp [completeTask, getTaskById, h]
  · intro t h
    constructor
    · simp [completeTask, getTaskById, h]
    · intro b2 now2 hid
      subst hid
      simp [completeTask, getTaskById, h, storeGet_storeInsert_self]

/-- Witness for C6: completing a pending task at time 7 and completing it
again at time 8. -/
theorem C6_complete_semantics_witness :
    completeTask "a" sampleBody [("a", sampleTask)] 7 =
      (TaskResult.ok { sampleTask with status := "completed", updatedAt := some 7 },
       storeInsert [("a", sampleTask)] sampleTask.id
         { sampleTask with status := "completed", updatedAt := some 7 }) ∧
    (completeTask "a" sampleBody
        (completeTask "a" sampleBody [("a", sampleTask)] 7).2 8).1 =
      TaskResult.ok
        { sampleTask with status := "completed", updatedAt := some 8 } :=
  ⟨((C6_complete_semantics [("a", sampleTask)] "a" sampleBody 7).2 sampleTask
      (by decide)).1,
   ((C6_complete_semantics [("a", sampleTask)] "a" sampleBody 7).2 sampleTask
      (by decide)).2 sampleBody 8 (by decide)⟩

/-- Every stored record's priority is one of the three enumerated values. -/
def storePrioritiesValid (s : Store) : Prop :=
  ∀ kv ∈ s, kv.2.priority = "low" ∨ kv.2.priority = "medium" ∨
    kv.2.priority = "high"

theorem storePrioritiesValid_applyOp (s : Store) (op : Op)
    (h : storePrioritiesValid s) : storePrioritiesValid (applyOp s op) := by
  cases op with
  | create b now f =>
    by_cases hval : validateTaskInput b = []
    · intro kv hkv
      simp only [applyOp] at hkv
      simp [createTask, hval] at hkv
      rcases mem_storeInsert _ _ _ _ hkv with hkv | hkv
      · subst hkv
        rcases priority_of_validate_nil b hval with hp | hp | hp <;>
          simp [mkCreatedTask, hp]
      · exact h kv hkv
    · intro kv hkv
      simp [applyOp, createTask, hval] at hkv
      exact h kv hkv
  | update id b now =>
    rcases hg : getTaskById id s with _ | t
    · intro kv hkv
      simp [applyOp, updateTask, hg] at hkv
      exact h kv hkv
    · by_cases hval : validateTaskInput b = []
      · intro kv hkv
        simp [applyOp, updateTask, hg, hval] at hkv
        rcases mem_storeInsert _ _ _ _ hkv with hkv | hkv
        · subst hkv
          rcases priority_of_validate_nil b hval with hp | hp | hp <;>
            simp [mergeTask, hp]
        · exact h kv hkv
      · intro kv hkv
        simp [applyOp, updateTask, hg, hval] at hkv
        exact h kv hkv
  | complete id b now =>
    rcases hg : getTaskById id s with _ | t
    · intro kv hkv
      simp [applyOp, completeTask, hg] at hkv
      exact h kv hkv
    · intro kv hkv
      simp [applyOp, completeTask, hg] at hkv
      rcases mem_storeInsert _ _ _ _ hkv with hkv | hkv
      · subst hkv
        exact h (id, t) (mem_of_storeGet s id t hg)
      · exact h kv hkv
  | delete id =>
    rcases hg : storeGet s id with _ | t
    · intro kv hkv
      simp [applyOp, deleteTask, hg] at hkv
      exact h kv hkv
    · intro kv hkv
      simp [applyOp, deleteTask, hg] at hkv
      exact h kv (mem_storeRemove _ _ _ hkv)

theorem storePrioritiesValid_runOps (init : Store) (ops : List Op)
    (h : storePrioritiesValid init) : storePrioritiesValid (runOps init ops) := by
  induction ops generalizing init with
  | nil => simpa [runOps] using h
  | cons op rest ih =>
    simpa [runOps, List.foldl] using
      ih (applyOp init op) (storePrioritiesValid_applyOp init op h)

/-- C9: starting from the empty store, after any sequence of create,
update, complete and delete operations, every stored task's priority is
one of low, medium and high. -/
theorem C9_priority_invariant (ops : List Op) (k : String) (t : Task)
    (h : storeGet (runOps [] ops) k = some t) :
    t.priority = "low" ∨ t.priority = "medium" ∨ t.priority = "high" := by
  have hinv : storePrioritiesValid (runOps [] ops) :=
    storePrioritiesValid_runOps [] ops (by intro kv hkv; simp at hkv)
  exact hinv (k, t) (mem_of_storeGet _ _ _ h)

/-- Witness for C9 after one concrete create. -/
theorem C9_priority_invariant_witness :
    storeGet (runOps [] [Op.create sampleBody 0 "a"]) "a" =
      some (mkCreatedTask sampleBody 0 "a") ∧
    ((mkCreatedTask sampleBody 0 "a").priority = "low" ∨
     (mkCreatedTask sampleBody 0 "a").priority = "medium" ∨
     (mkCreatedTask sampleBody 0 "a").priority = "high") :=
  ⟨by decide,
   C9_priority_invariant [Op.create sampleBody 0 "a"] "a"
     (mkCreatedTask sampleBody 0 "a") (by decide)⟩

end TaskTracker
